import Mathlib

/-!
Verification development for the AI DM Listener real-time audio-to-response
pipeline.  The definitions below are a shallow embedding of the TypeScript
sources:

* `src/main/audioCapture.ts` — voice-activity detection (VAD) and the
  chunk assembler (`AudioCapture.start/stop/addAudioData/processBuffer`);
* `src/main/ollamaService.ts` — the decision engine
  (`OllamaService.buildSystemPrompt/generateResponse/clearHistory`);
* `src/main/index.ts` — the per-chunk orchestrator (`setupAudioProcessing`,
  the `audioCapture.on(..)` handler) together with its module-level state.

Audio samples and confidences are JavaScript numbers in the source; they are
modelled as rationals.  `Math.sqrt` comparisons are embedded in squared form
(for a nonnegative radicand and a nonnegative bound, `Math.sqrt x > c` holds
exactly when `x > c * c`); the bridging equivalence with `Real.sqrt` is proved
where the voice-activity claim needs it.  Every external service call
(transcription, diarization, intent, knowledge, chat completion, synthesis)
is a suspension point whose outcome arrives from outside the process, so each
is modelled as an explicit `Except Unit`-valued input to the step function.
-/

namespace VttDM

/-! ## Voice activity detection — `src/main/audioCapture.ts` lines 9-18, 86-129 -/

/-- `SAMPLE_RATE = 16000` -/
def SAMPLE_RATE : ℚ := 16000

/-- `CHUNK_DURATION = 2000` (ms) -/
def CHUNK_DURATION : ℚ := 2000

/-- `VAD_ENERGY_THRESHOLD = 0.01` -/
def VAD_ENERGY_THRESHOLD : ℚ := 1/100

/-- `VAD_MIN_SPEECH_SAMPLES = 800` -/
def VAD_MIN_SPEECH_SAMPLES : ℕ := 800

/-- Running total `sumSquares += sample * sample` of `detectVoiceActivity`. -/
def sumSquares (samples : List ℚ) : ℚ :=
  (samples.map (fun s => s * s)).sum

/-- The count of samples with `Math.abs(sample) > minEnergy` where
`minEnergy = VAD_ENERGY_THRESHOLD * 0.5`. -/
def samplesAboveThreshold (samples : List ℚ) : ℕ :=
  (samples.filter (fun s => decide (abs s > VAD_ENERGY_THRESHOLD * (1/2)))).length

/-- The count of indices `i > 0` with
`(samples[i-1] >= 0 && samples[i] < 0) || (samples[i-1] < 0 && samples[i] >= 0)`:
a zero crossing between each consecutive pair. -/
def zeroCrossings (samples : List ℚ) : ℕ :=
  ((samples.zip samples.tail).filter
    (fun p => decide ((0 ≤ p.1 ∧ p.2 < 0) ∨ (p.1 < 0 ∧ 0 ≤ p.2)))).length

/-- `AudioCapture.detectVoiceActivity` (lines 86-129).  The source compares
`rmsEnergy = Math.sqrt(sumSquares / samples.length)` against
`VAD_ENERGY_THRESHOLD`; both sides are nonnegative, so the comparison is
embedded squared (`sumSquares / n > threshold²`), which is equivalent and
keeps the definition executable over ℚ.  The console logging on rejection has
no observable effect and is omitted. -/
def detectVoiceActivity (samples : List ℚ) : Bool :=
  if samples.length = 0 then false
  else
    let n : ℚ := samples.length
    let rmsEnergySq : ℚ := sumSquares samples / n
    let zeroCrossingRate : ℚ := (zeroCrossings samples : ℚ) / n
    let hasEnergy : Bool := decide (rmsEnergySq > VAD_ENERGY_THRESHOLD * VAD_ENERGY_THRESHOLD)
    let hasSufficientSamples : Bool := decide (samplesAboveThreshold samples > VAD_MIN_SPEECH_SAMPLES)
    let hasReasonableZeroCrossings : Bool :=
      decide (zeroCrossingRate > 2/100 ∧ zeroCrossingRate < 5/10)
    hasEnergy && hasSufficientSamples && hasReasonableZeroCrossings

/-! ## Chunk assembler — `src/main/audioCapture.ts` lines 20-81, 134-164 -/

/-- `AudioChunk` (lines 20-24); the `Date` timestamp is modelled as a natural
number. -/
structure AudioChunk where
  data : List ℚ
  timestamp : ℕ
  duration : ℚ
deriving Repr, DecidableEq

/-- The mutable fields of class `AudioCapture`: `isCapturing`, `audioBuffer`,
and whether `chunkInterval` currently holds a live timer. -/
structure AudioCaptureState where
  isCapturing : Bool
  audioBuffer : List (List ℚ)
  chunkIntervalActive : Bool
deriving Repr, DecidableEq

/-- Events emitted by `AudioCapture` (`this.emit(..)`). -/
inductive CaptureEvent where
  | started : CaptureEvent
  | stopped : CaptureEvent
  | chunk : AudioChunk → CaptureEvent
deriving Repr, DecidableEq

/-- `AudioCapture.processBuffer` (lines 134-164): concatenate the buffered
arrays, clear the buffer, and emit one chunk only when
`detectVoiceActivity` accepts the concatenation.  `now` stands for
`new Date()`. -/
def processBuffer (s : AudioCaptureState) (now : ℕ) :
    AudioCaptureState × Option AudioChunk :=
  if s.audioBuffer.length = 0 then (s, none)
  else
    let combined : List ℚ := s.audioBuffer.flatten
    let s' : AudioCaptureState := { s with audioBuffer := [] }
    if detectVoiceActivity combined then
      (s', some { data := combined, timestamp := now,
                  duration := (combined.length : ℚ) / SAMPLE_RATE * 1000 })
    else
      (s', none)

/-- `AudioCapture.start` (lines 39-52): no-op when already capturing,
otherwise reset the buffer, install the interval timer, emit `started`. -/
def start (s : AudioCaptureState) : AudioCaptureState × List CaptureEvent :=
  if s.isCapturing then (s, [])
  else
    ({ isCapturing := true, audioBuffer := [], chunkIntervalActive := true },
     [CaptureEvent.started])

/-- `AudioCapture.stop` (lines 57-73): no-op when not capturing, otherwise
clear the flag and the timer, flush through `processBuffer`, clear the
buffer, emit `stopped`. -/
def stop (s : AudioCaptureState) (now : ℕ) :
    AudioCaptureState × List CaptureEvent :=
  if s.isCapturing then
    let s1 : AudioCaptureState :=
      { s with isCapturing := false, chunkIntervalActive := false }
    let r := processBuffer s1 now
    let s3 : AudioCaptureState := { r.1 with audioBuffer := [] }
    (s3, (match r.2 with
          | some c => [CaptureEvent.chunk c]
          | none => []) ++ [CaptureEvent.stopped])
  else (s, [])

/-- `AudioCapture.addAudioData` (lines 78-81). -/
def addAudioData (s : AudioCaptureState) (data : List ℚ) : AudioCaptureState :=
  if s.isCapturing then { s with audioBuffer := s.audioBuffer ++ [data] }
  else s

/-! ## Decision engine — `src/main/ollamaService.ts` -/

/-- `'combat' | 'exploration' | 'rp'` (the source's scene-mode union type). -/
inductive SceneMode where
  | combat : SceneMode
  | exploration : SceneMode
  | rp : SceneMode
deriving Repr, DecidableEq

/-- The `temperature` record of `OllamaConfig` (lines 11-15). -/
structure TemperatureConfig where
  combat : ℚ
  exploration : ℚ
  rp : ℚ
deriving Repr, DecidableEq

/-- `OllamaConfig` (lines 8-16). -/
structure OllamaConfig where
  host : String
  model : String
  temperature : TemperatureConfig
deriving Repr, DecidableEq

/-- `DEFAULT_CONFIG` (lines 18-26): combat 0.7, exploration 0.9, rp 0.8. -/
def DEFAULT_CONFIG : OllamaConfig :=
  { host := "http://localhost:11434"
    model := "mistral:7b-instruct-q4_K_M"
    temperature := { combat := 7/10, exploration := 9/10, rp := 8/10 } }

/-- The indexing `config.temperature[context.sceneMode]` (line 176). -/
def temperatureFor (t : TemperatureConfig) : SceneMode → ℚ
  | SceneMode.combat => t.combat
  | SceneMode.exploration => t.exploration
  | SceneMode.rp => t.rp

/-- Message roles (`'system' | 'user' | 'assistant'`, line 29). -/
inductive Role where
  | system : Role
  | user : Role
  | assistant : Role
deriving Repr, DecidableEq

/-- `Message` (lines 28-31). -/
structure Message where
  role : Role
  content : String
deriving Repr, DecidableEq

/-- One entry of `recentTranscript` in `LLMContext` (line 49). -/
structure Utterance where
  speaker : String
  text : String
deriving Repr, DecidableEq

/-- `LLMContext` (lines 46-53). -/
structure LLMContext where
  sceneMode : SceneMode
  sceneDescription : String
  recentTranscript : List Utterance
  relevantKnowledge : List String
  characterStats : String
  activeNPCs : List String
deriving Repr, DecidableEq

/-- One entry of `message.tool_calls` as `generateResponse` reads it
(lines 219-221): the function name and the `text` / `npc_voice` arguments,
each possibly absent in the model output. -/
structure ToolCall where
  name : String
  argText : Option String
  argNpcVoice : Option String
deriving Repr, DecidableEq

/-- `data.message` of the Ollama `/api/chat` reply as `generateResponse`
reads it: `content` (possibly null) and `tool_calls` (possibly empty). -/
structure ChatResponseMsg where
  content : Option String
  tool_calls : List ToolCall
deriving Repr, DecidableEq

/-- Drop leading and trailing whitespace from a character list. -/
def trimChars (l : List Char) : List Char :=
  ((l.dropWhile Char.isWhitespace).reverse.dropWhile Char.isWhitespace).reverse

/-- JavaScript `String.prototype.trim()`, embedded structurally (kept
kernel-reducible so concrete runs evaluate; whitespace is `Char.isWhitespace`). -/
def jsTrim (s : String) : String :=
  ⟨trimChars s.data⟩

/-- `modeDescriptions` of `buildSystemPrompt` (lines 92-96). -/
def modeDescriptions : SceneMode → String
  | SceneMode.combat =>
      "Combat mode - Be tactical, concise, and action-focused. Describe attacks, damage, and combat outcomes briefly."
  | SceneMode.exploration =>
      "Exploration mode - Be descriptive and atmospheric. Paint vivid pictures of environments and encourage curiosity."
  | SceneMode.rp =>
      "Roleplay mode - Be character-driven and intimate. Focus on NPC personalities, emotions, and dialogue."

/-- `[${t.speaker}]: ${t.text}` (line 104). -/
def formatUtterance (t : Utterance) : String :=
  "[" ++ t.speaker ++ "]: " ++ t.text

/-- `context.activeNPCs.join(', ') || 'None specified'` (line 112): the empty
joined string is falsy in JavaScript, so it is replaced by the default. -/
def activeNPCsLine (npcs : List String) : String :=
  let joined := String.intercalate ", " npcs
  if joined = "" then "None specified" else joined

/-- The part of the `buildSystemPrompt` template literal before the
scene-mode guidance slot (`MODE: ${modeDescriptions[context.sceneMode]}`). -/
def promptHeader (context : LLMContext) : String :=
  "You are an experienced Dungeon Master running a D&D 5e campaign in freeform narrative style.\n\n"
  ++ "CURRENT SCENE: " ++ context.sceneDescription ++ "\n"
  ++ "MODE: "

/-- The part of the `buildSystemPrompt` template literal after the
scene-mode guidance slot. -/
def promptTail (context : LLMContext) : String :=
  "\n\n"
  ++ "RECENT CONVERSATION:\n"
  ++ String.intercalate "\n" (context.recentTranscript.map formatUtterance) ++ "\n\n"
  ++ "RELEVANT CAMPAIGN KNOWLEDGE:\n"
  ++ String.intercalate "\n\n" context.relevantKnowledge ++ "\n\n"
  ++ "PLAYER CHARACTERS:\n"
  ++ context.characterStats ++ "\n\n"
  ++ "ACTIVE NPCs: " ++ activeNPCsLine context.activeNPCs ++ "\n\n"
  ++ "You have two tools available:\n"
  ++ "1. tts_respond(text, npc_voice?): Speak narration or NPC dialogue to the players\n"
  ++ "2. wait_ignore(): Remain silent and wait for more player input\n\n"
  ++ "Guidelines:\n"
  ++ "- Only respond when players ask questions, declare actions, or need DM narration\n"
  ++ "- In combat: Keep responses under 2 sentences unless describing significant events\n"
  ++ "- In exploration: Describe environments with sensory details\n"
  ++ "- In RP: Give NPCs distinct personalities and speech patterns\n"
  ++ "- Never break character or mention game mechanics unless players ask about rules\n"
  ++ "- If unsure what players want, ask a clarifying question through tts_respond"

/-- `OllamaService.buildSystemPrompt` (lines 91-125): the template literal,
written as the text before the mode slot, the selected mode description, and
the text after it. -/
def buildSystemPrompt (context : LLMContext) : String :=
  promptHeader context ++ modeDescriptions context.sceneMode ++ promptTail context

/-- The action component of the `generateResponse` return type (line 171). -/
inductive Action where
  | respond : Action
  | wait : Action
deriving Repr, DecidableEq

/-- The `generateResponse` return value
`{ action, text?, npcVoice? }` (lines 170-174). -/
structure Decision where
  action : Action
  text : Option String
  npcVoice : Option String
deriving Repr, DecidableEq

/-- Lines 178-182: the user content is built from the last transcript entry,
with a fixed fallback when the transcript is empty. -/
def userContentFor (context : LLMContext) : String :=
  match context.recentTranscript.getLast? with
  | some lastMessage => formatUtterance lastMessage
  | none => "Players are waiting for your response."

/-- JavaScript `array.slice(-n)`: the last `n` elements (all of them when the
list is shorter). -/
def takeLast {α : Type} (n : ℕ) (l : List α) : List α :=
  l.drop (l.length - n)

/-- The request body of the `/api/chat` call (lines 185-202): model, message
list, and generation options. -/
structure ChatRequest where
  model : String
  messages : List Message
  temperature : ℚ
  num_ctx : ℕ
deriving Repr, DecidableEq

/-- Lines 188-201: system prompt, then `conversationHistory.slice(-10)`, then
the user message. -/
def buildChatRequest (config : OllamaConfig) (history : List Message)
    (context : LLMContext) : ChatRequest :=
  { model := config.model
    messages := [⟨Role.system, buildSystemPrompt context⟩]
      ++ takeLast 10 history
      ++ [⟨Role.user, userContentFor context⟩]
    temperature := temperatureFor config.temperature context.sceneMode
    num_ctx := 4096 }

/-- Lines 234-242: when no recognized tool call decides the action, non-empty
trimmed free text is an implicit respond, otherwise the result is wait.
The guard `message.content && message.content.trim()` takes the respond
branch exactly when `content` is present and trims to a non-empty string. -/
def contentFallback (message : ChatResponseMsg) : Decision :=
  match message.content with
  | some c =>
      if jsTrim c = "" then ⟨Action.wait, none, none⟩
      else ⟨Action.respond, some (jsTrim c), none⟩
  | none => ⟨Action.wait, none, none⟩

/-- Lines 218-242: the source inspects only `message.tool_calls[0]`; an
unrecognized function name falls through to the free-text fallback. -/
def parseDecision (message : ChatResponseMsg) : Decision :=
  match message.tool_calls with
  | toolCall :: _ =>
      if toolCall.name = "tts_respond" then
        ⟨Action.respond, toolCall.argText, toolCall.argNpcVoice⟩
      else if toolCall.name = "wait_ignore" then
        ⟨Action.wait, none, none⟩
      else contentFallback message
  | [] => contentFallback message

/-- The mutable fields of class `OllamaService` (lines 55-57). -/
structure OllamaState where
  config : OllamaConfig
  conversationHistory : List Message
deriving Repr, DecidableEq

/-- `message.content || ''` (line 215). -/
def contentOrEmpty (c : Option String) : String :=
  match c with
  | some s => s
  | none => ""

/-- `OllamaService.generateResponse` (lines 170-248).  The `fetch` of
`/api/chat` is a suspension point; its outcome is the `fetchOutcome`
argument: `Except.error` covers both a rejected fetch and a non-ok HTTP
status (line 204 turns the latter into a throw), and `Except.ok` carries
`data.message`.  On a throw nothing has been pushed to
`conversationHistory`; on success the user and assistant messages are pushed
(lines 214-215) before the tool-call parse.  The built request is returned
so that callers can be examined. -/
def generateResponse (s : OllamaState) (context : LLMContext)
    (fetchOutcome : Except Unit ChatResponseMsg) :
    OllamaState × ChatRequest × Except Unit Decision :=
  let request := buildChatRequest s.config s.conversationHistory context
  match fetchOutcome with
  | Except.error e => (s, request, Except.error e)
  | Except.ok message =>
      let userContent := userContentFor context
      let s' : OllamaState :=
        { s with conversationHistory := s.conversationHistory
            ++ [⟨Role.user, userContent⟩,
                ⟨Role.assistant, contentOrEmpty message.content⟩] }
      (s', request, Except.ok (parseDecision message))

/-- `OllamaService.clearHistory` (lines 253-255). -/
def clearHistory (s : OllamaState) : OllamaState :=
  { s with conversationHistory := [] }

/-! ## Orchestrator — `src/main/index.ts`

The per-chunk handler registered by `setupAudioProcessing` (lines 74-175)
plus the module-level state it reads and writes (lines 15-21).  The stale
copy of this file kept in the repository alongside it (with a hard-coded
`sceneMode: 'exploration'` and a single-utterance `recentTranscript`)
predates the state tracking; the canonical `src/main/index.ts` is embedded
here. -/

/-- `{ text, ... }` of `pythonService.transcribe`; only `text` is read by the
handler. -/
structure Transcription where
  text : String
deriving Repr, DecidableEq

/-- The local `diarization` value (lines 95-98): `speaker_id` and
`confidence` (the wire format's `alternatives` list is never read by the
handler and is omitted). -/
structure Diarization where
  speaker_id : String
  confidence : ℚ
deriving Repr, DecidableEq

/-- The declared return shape of `pythonService.detectIntent`
(`pythonService.ts`): `{ should_respond, confidence, intent_type }`.  The
chunk handler reads only `should_respond` (line 137). -/
structure IntentResult where
  should_respond : Bool
  confidence : ℚ
  intent_type : String
deriving Repr, DecidableEq

/-- One entry of `knowledge.results`; the handler reads only `content`
(line 147). -/
structure KnowledgeResult where
  content : String
deriving Repr, DecidableEq

/-- `{ audio_data, ... }` of `pythonService.synthesize`. -/
structure SynthesisResult where
  audio_data : String
deriving Repr, DecidableEq

/-- The outcomes of the external calls one chunk's handler may make, in
program order.  Each `Except.error` stands for a rejected promise. -/
structure ChunkOutcomes where
  pythonRunning : Bool
  transcribe : Except Unit Transcription
  diarize : Except Unit Diarization
  detectIntent : Except Unit IntentResult
  searchKnowledge : Except Unit (List KnowledgeResult)
  chatFetch : Except Unit ChatResponseMsg
  synthesize : Except Unit SynthesisResult

/-- Module-level mutable state of `src/main/index.ts` (lines 15-21) together
with the `OllamaService` singleton state the handler drives. -/
structure MainState where
  currentSceneMode : SceneMode
  currentSceneDescription : String
  recentTranscriptBuffer : List Utterance
  activeNPCs : List String
  characterStatsCache : String
  ollama : OllamaState
deriving Repr, DecidableEq

/-- The initial values of the module-level lets (lines 15-21) and a fresh
`OllamaService` (line 60). -/
def initialMainState : MainState :=
  { currentSceneMode := SceneMode.exploration
    currentSceneDescription := "The adventure continues..."
    recentTranscriptBuffer := []
    activeNPCs := []
    characterStatsCache := ""
    ollama := { config := DEFAULT_CONFIG, conversationHistory := [] } }

/-- `MAX_TRANSCRIPT_HISTORY = 10` (line 21). -/
def MAX_TRANSCRIPT_HISTORY : ℕ := 10

/-- Lines 107-115: push the utterance, then trim with `slice(-10)` once the
length exceeds the bound. -/
def pushTranscript (buffer : List Utterance) (u : Utterance) : List Utterance :=
  let b := buffer ++ [u]
  if b.length > MAX_TRANSCRIPT_HISTORY then takeLast MAX_TRANSCRIPT_HISTORY b
  else b

/-- Lines 100-105: a failed diarization is replaced by the
`unknown`/`0`-confidence fallback declared at lines 95-98. -/
def resolveDiarization (o : Except Unit Diarization) : Diarization :=
  match o with
  | Except.ok d => d
  | Except.error _ => { speaker_id := "unknown", confidence := 0 }

/-- `mainWindow.webContents.send(..)` payloads observable by the renderer. -/
inductive RendererEvent where
  | lowConfidence : String → ℚ → String → RendererEvent
  | transcriptUpdate : String → String → ℚ → ℕ → RendererEvent
  | dmResponse : String → Option String → Option String → RendererEvent
deriving Repr, DecidableEq

/-- The external service invocations one handler run performs, in order. -/
inductive ServiceCall where
  | transcribeCall : ServiceCall
  | diarizeCall : ServiceCall
  | detectIntentCall : String → ServiceCall
  | searchKnowledgeCall : String → ℕ → ServiceCall
  | generateCall : ChatRequest → LLMContext → ServiceCall
  | synthesizeCall : String → Option String → ServiceCall
deriving Repr, DecidableEq

/-- Lines 117-124: the low-confidence advisory send, emitted when the
diarization confidence is below 0.6 and the speaker is identified. -/
def lowConfidenceEvents (diarization : Diarization) (text : String) :
    List RendererEvent :=
  if diarization.confidence < 6/10 ∧ diarization.speaker_id ≠ "unknown" then
    [RendererEvent.lowConfidence diarization.speaker_id diarization.confidence text]
  else []

/-- Lines 152-169: the response gate `response.action === 'respond' &&
response.text` — JavaScript truthiness, so an absent or empty text blocks
the branch. -/
def textTruthy (t : Option String) : Bool :=
  match t with
  | some s => !(s = "")
  | none => false

/-- The `audioCapture.on('chunk', async ..)` handler of
`setupAudioProcessing` (`src/main/index.ts` lines 77-174), as a function of
the state, the chunk, and the external-call outcomes.  The outer
`try/catch` (lines 80, 171-173) turns any rejection into an early return
that keeps every state mutation and renderer send already performed, so each
error case below returns the accumulated state, events and calls.  Output:
new state, renderer events in send order, service calls in call order. -/
def onChunk (s : MainState) (chunk : AudioChunk) (o : ChunkOutcomes) :
    MainState × List RendererEvent × List ServiceCall :=
  if !o.pythonRunning then (s, [], [])
  else
    match o.transcribe with
    | Except.error _ => (s, [], [ServiceCall.transcribeCall])
    | Except.ok transcription =>
        if jsTrim transcription.text = "" then (s, [], [ServiceCall.transcribeCall])
        else
          let diarization := resolveDiarization o.diarize
          let buffer' := pushTranscript s.recentTranscriptBuffer
            ⟨diarization.speaker_id, transcription.text⟩
          let s1 : MainState := { s with recentTranscriptBuffer := buffer' }
          let events1 := lowConfidenceEvents diarization transcription.text
            ++ [RendererEvent.transcriptUpdate transcription.text
                  diarization.speaker_id diarization.confidence chunk.timestamp]
          let calls1 := [ServiceCall.transcribeCall, ServiceCall.diarizeCall]
          match o.detectIntent with
          | Except.error _ =>
              (s1, events1, calls1 ++ [ServiceCall.detectIntentCall transcription.text])
          | Except.ok intent =>
              let calls2 := calls1 ++ [ServiceCall.detectIntentCall transcription.text]
              if !intent.should_respond then (s1, events1, calls2)
              else
                match o.searchKnowledge with
                | Except.error _ =>
                    (s1, events1,
                     calls2 ++ [ServiceCall.searchKnowledgeCall transcription.text 3])
                | Except.ok results =>
                    let calls3 := calls2
                      ++ [ServiceCall.searchKnowledgeCall transcription.text 3]
                    let context : LLMContext :=
                      { sceneMode := s1.currentSceneMode
                        sceneDescription := s1.currentSceneDescription
                        recentTranscript := buffer'
                        relevantKnowledge := results.map (fun r => r.content)
                        characterStats := s1.characterStatsCache
                        activeNPCs := s1.activeNPCs }
                    let g := generateResponse s1.ollama context o.chatFetch
                    let s2 : MainState := { s1 with ollama := g.1 }
                    let calls4 := calls3 ++ [ServiceCall.generateCall g.2.1 context]
                    match g.2.2 with
                    | Except.error _ => (s2, events1, calls4)
                    | Except.ok response =>
                        if response.action = Action.respond ∧ textTruthy response.text then
                          let t := contentOrEmpty response.text
                          let calls5 := calls4
                            ++ [ServiceCall.synthesizeCall t response.npcVoice]
                          match o.synthesize with
                          | Except.ok audio =>
                              (s2, events1 ++ [RendererEvent.dmResponse t
                                 (some audio.audio_data) response.npcVoice], calls5)
                          | Except.error _ =>
                              (s2, events1 ++ [RendererEvent.dmResponse t
                                 none response.npcVoice], calls5)
                        else (s2, events1, calls4)

/-- One firing of the chunk interval (`setInterval` at lines 46-48 of
`audioCapture.ts` runs `processBuffer`; an emitted chunk reaches the
`on('chunk', ..)` handler).  When no chunk is emitted the handler never
runs: no renderer event, no service call. -/
def timerTick (a : AudioCaptureState) (now : ℕ) (s : MainState)
    (o : ChunkOutcomes) :
    AudioCaptureState × MainState × List RendererEvent × List ServiceCall :=
  let r := processBuffer a now
  match r.2 with
  | none => (r.1, s, [], [])
  | some c =>
      let run := onChunk s c o
      (r.1, run.1, run.2.1, run.2.2)

/-! ## Concurrency model for the chunk handler

`audioCapture.on('chunk', async (chunk) => ..)` registers an async handler
that the emitter invokes without awaiting, so the handler chains of distinct
chunks run concurrently and their externally visible sends may interleave in
any order consistent with each chain's own program order.  `Interleave xs ys
zs` says that `zs` is such a merge of the two chains' event lists. -/
inductive Interleave {α : Type} : List α → List α → List α → Prop where
  | nil : Interleave [] [] []
  | left : ∀ (x : α) (xs ys zs : List α),
      Interleave xs ys zs → Interleave (x :: xs) ys (x :: zs)
  | right : ∀ (y : α) (xs ys zs : List α),
      Interleave xs ys zs → Interleave xs (y :: ys) (y :: zs)

/-- The capture timestamps of the published transcript updates, in publish
order. -/
def transcriptTimestamps (events : List RendererEvent) : List ℕ :=
  events.filterMap (fun e =>
    match e with
    | RendererEvent.transcriptUpdate _ _ _ ts => some ts
    | _ => none)

/-- A chunk captured at time `ts`; the handler never reads `data` directly
(it goes to the external services), so its content is irrelevant here. -/
def chunkAt (ts : ℕ) : AudioChunk :=
  { data := [], timestamp := ts, duration := CHUNK_DURATION }

/-- Service outcomes for a chunk whose pipeline stops after intent detection
(`should_respond = false`): transcription and diarization succeed, so exactly
one transcript update is published. -/
def noRespondOutcomes : ChunkOutcomes :=
  { pythonRunning := true
    transcribe := Except.ok ⟨"hello there"⟩
    diarize := Except.ok ⟨"alice", 1⟩
    detectIntent := Except.ok ⟨false, 1/2, "chatter"⟩
    searchKnowledge := Except.error ()
    chatFetch := Except.error ()
    synthesize := Except.error () }

/-- The renderer events of one chunk's handler run from the initial state
(in this scenario they do not depend on buffered context, so concurrent
handlers produce these lists regardless of how the runs interleave). -/
def runEvents (c : AudioChunk) : List RendererEvent :=
  (onChunk initialMainState c noRespondOutcomes).2.1

/-- 2.4 s of silence at 16 kHz: 38400 zero samples. -/
def silentSamples : List ℚ := List.replicate 38400 0

/-- A capturing assembler holding only the silent buffer. -/
def silentCapture : AudioCaptureState :=
  { isCapturing := true, audioBuffer := [silentSamples], chunkIntervalActive := true }

/-- A chat reply carrying no recognized tool call, used to drive the
history-growth replay. -/
def replayMsg : ChatResponseMsg :=
  { content := some "The goblin snarls.", tool_calls := [] }

/-- A fixed generation context for the history-growth replay. -/
def replayCtx : LLMContext :=
  { sceneMode := SceneMode.exploration
    sceneDescription := "A cave."
    recentTranscript := [⟨"alice", "hello"⟩]
    relevantKnowledge := []
    characterStats := ""
    activeNPCs := [] }

/-- `n` successive successful `generateResponse` calls against the same
context and reply. -/
def iterateCalls : ℕ → OllamaState → OllamaState
  | 0, s => s
  | n + 1, s => iterateCalls n (generateResponse s replayCtx (Except.ok replayMsg)).1

/-- No recognized tool call decides the reply: the `tool_calls` list is
empty, or its inspected head is neither `tts_respond` nor `wait_ignore`. -/
def noRecognizedToolCall (message : ChatResponseMsg) : Prop :=
  message.tool_calls = [] ∨
  ∃ tc rest, message.tool_calls = tc :: rest ∧
    tc.name ≠ "tts_respond" ∧ tc.name ≠ "wait_ignore"

/-! ## Theorems -/

/-- C7: the decision engine's result per language-model reply: a
`tts_respond` tool call yields action respond with the call's text and
optional voice; a `wait_ignore` tool call yields wait; a reply with no
recognized tool call but non-empty trimmed free text yields respond with
that trimmed text; and a reply with no recognized tool call and
empty/whitespace content yields wait rather than an error. -/
theorem c7_decision_mapping :
    (∀ (m : ChatResponseMsg) (tc : ToolCall) (rest : List ToolCall),
        m.tool_calls = tc :: rest → tc.name = "tts_respond" →
        parseDecision m = ⟨Action.respond, tc.argText, tc.argNpcVoice⟩) ∧
    (∀ (m : ChatResponseMsg) (tc : ToolCall) (rest : List ToolCall),
        m.tool_calls = tc :: rest → tc.name = "wait_ignore" →
        parseDecision m = ⟨Action.wait, none, none⟩) ∧
    (∀ (m : ChatResponseMsg) (c : String),
        noRecognizedToolCall m → m.content = some c → ¬ jsTrim c = "" →
        parseDecision m = ⟨Action.respond, some (jsTrim c), none⟩) ∧
    (∀ (m : ChatResponseMsg),
        noRecognizedToolCall m →
        (m.content = none ∨ ∃ c, m.content = some c ∧ jsTrim c = "") →
        parseDecision m = ⟨Action.wait, none, none⟩) := by
  refine ⟨?_, ?_, ?_, ?_⟩
  · intro m tc rest h hn
    simp [parseDecision, h, hn]
  · intro m tc rest h hn
    have hne : ¬ tc.name = "tts_respond" := by rw [hn]; decide
    simp [parseDecision, h, hn, hne]
  · intro m c hno hc ht
    rcases hno with h0 | ⟨tc, rest, h, h1, h2⟩
    · simp [parseDecision, h0, contentFallback, hc, ht]
    · simp [parseDecision, h, h1, h2, contentFallback, hc, ht]
  · intro m hno hc
    rcases hno with h0 | ⟨tc, rest, h, h1, h2⟩
    · rcases hc with hnone | ⟨c, hsome, htrim⟩
      · simp [parseDecision, h0, contentFallback, hnone]
      · simp [parseDecision, h0, contentFallback, hsome, htrim]
    · rcases hc with hnone | ⟨c, hsome, htrim⟩
      · simp [parseDecision, h, h1, h2, contentFallback, hnone]
      · simp [parseDecision, h, h1, h2, contentFallback, hsome, htrim]

/-- Witness for C7 at a concrete reply with no tool call and free text. -/
theorem c7_decision_mapping_witness :
    parseDecision { content := some " Hi ", tool_calls := [] } =
      ⟨Action.respond, some "Hi", none⟩ :=
  c7_decision_mapping.2.2.1 { content := some " Hi ", tool_calls := [] }
    " Hi " (Or.inl rfl) rfl (by decide)

/-- C10: `generateResponse` mutates `conversationHistory` atomically with
respect to transport failure: a rejected or non-ok fetch makes the call
throw with the history untouched; a successful call appends exactly one
user and one assistant message, whatever action is parsed. -/
theorem c10_generate_history_atomic :
    (∀ (s : OllamaState) (ctx : LLMContext),
        generateResponse s ctx (Except.error ()) =
          (s, buildChatRequest s.config s.conversationHistory ctx,
           Except.error ())) ∧
    (∀ (s : OllamaState) (ctx : LLMContext) (msg : ChatResponseMsg),
        generateResponse s ctx (Except.ok msg) =
          ({ s with conversationHistory := s.conversationHistory ++
              [⟨Role.user, userContentFor ctx⟩,
               ⟨Role.assistant, contentOrEmpty msg.content⟩] },
           buildChatRequest s.config s.conversationHistory ctx,
           Except.ok (parseDecision msg))) :=
  ⟨fun _ _ => rfl, fun _ _ _ => rfl⟩

/-- C9, counterexample: the stored conversation history is not bounded by
10 request/response pairs (20 messages) — after 11 successful calls it
holds 22 messages. -/
theorem c9_history_bound_counterexample :
    (iterateCalls 11
        { config := DEFAULT_CONFIG, conversationHistory := [] }
      ).conversationHistory.length = 22 ∧ ¬ (22 : ℕ) ≤ 2 * 10 :=
  ⟨rfl, by decide⟩

/-- C9, amended: the engine keeps its own history, distinct from the
context's recent utterances; every successful call appends exactly one
user/assistant pair regardless of the parsed action; each request includes
only the last 10 stored messages (5 pairs); `clearHistory` empties the
store.  The store itself is unbounded. -/
theorem c9_history_amended :
    (∀ (s : OllamaState) (ctx : LLMContext) (msg : ChatResponseMsg),
        (generateResponse s ctx (Except.ok msg)).1.conversationHistory =
          s.conversationHistory ++
            [⟨Role.user, userContentFor ctx⟩,
             ⟨Role.assistant, contentOrEmpty msg.content⟩]) ∧
    (∀ (s : OllamaState) (ctx : LLMContext) (fo : Except Unit ChatResponseMsg),
        (generateResponse s ctx fo).2.1.messages =
          [⟨Role.system, buildSystemPrompt ctx⟩]
            ++ takeLast 10 s.conversationHistory
            ++ [⟨Role.user, userContentFor ctx⟩]) ∧
    (∀ (l : List Message), (takeLast 10 l).length ≤ 10) ∧
    (∀ (s : OllamaState), (clearHistory s).conversationHistory = []) := by
  refine ⟨fun _ _ _ => rfl, ?_, ?_, fun _ => rfl⟩
  · intro s ctx fo
    cases fo <;> rfl
  · intro l
    simp only [takeLast, List.length_drop]
    omega

/-- The FIFO update always equals the maximal bounded suffix of the appended
sequence. -/
theorem pushTranscript_eq_takeLast (buffer : List Utterance) (u : Utterance) :
    pushTranscript buffer u = takeLast MAX_TRANSCRIPT_HISTORY (buffer ++ [u]) := by
  show (if (buffer ++ [u]).length > MAX_TRANSCRIPT_HISTORY
      then takeLast MAX_TRANSCRIPT_HISTORY (buffer ++ [u])
      else buffer ++ [u]) = takeLast MAX_TRANSCRIPT_HISTORY (buffer ++ [u])
  by_cases hb : (buffer ++ [u]).length > MAX_TRANSCRIPT_HISTORY
  · rw [if_pos hb]
  · rw [if_neg hb]
    have h0 : (buffer ++ [u]).length - MAX_TRANSCRIPT_HISTORY = 0 := by
      unfold MAX_TRANSCRIPT_HISTORY at hb ⊢
      omega
    unfold takeLast
    rw [h0, List.drop_zero]

/-- C2: the rolling transcript FIFO — each transcribed chunk appends the
`{speakerId, text}` pair, the oldest entries are evicted beyond the bound of
10, the result is the suffix of the append sequence (most recent entries, in
insertion order, length `min (n+1) 10`), and the context handed to the
decision engine carries exactly this updated list. -/
theorem c2_recent_utterances_fifo :
    (∀ (buffer : List Utterance) (u : Utterance),
        pushTranscript buffer u = takeLast MAX_TRANSCRIPT_HISTORY (buffer ++ [u]) ∧
        (pushTranscript buffer u).length =
          min (buffer.length + 1) MAX_TRANSCRIPT_HISTORY ∧
        ∃ pre, pre ++ pushTranscript buffer u = buffer ++ [u]) ∧
    (∀ (s : MainState) (chunk : AudioChunk) (txt : String)
        (dz : Except Unit Diarization) (it : Except Unit IntentResult)
        (ks : Except Unit (List KnowledgeResult)) (cf : Except Unit ChatResponseMsg)
        (sy : Except Unit SynthesisResult), ¬ jsTrim txt = "" →
        (onChunk s chunk ⟨true, Except.ok ⟨txt⟩, dz, it, ks, cf, sy⟩
          ).1.recentTranscriptBuffer =
          pushTranscript s.recentTranscriptBuffer
            ⟨(resolveDiarization dz).speaker_id, txt⟩) ∧
    (∀ (s : MainState) (chunk : AudioChunk) (txt : String)
        (dz : Except Unit Diarization) (i : IntentResult)
        (ks : List KnowledgeResult) (cf : Except Unit ChatResponseMsg)
        (sy : Except Unit SynthesisResult),
        ¬ jsTrim txt = "" → i.should_respond = true →
        ∃ req,
          ServiceCall.generateCall req
            { sceneMode := s.currentSceneMode
              sceneDescription := s.currentSceneDescription
              recentTranscript := pushTranscript s.recentTranscriptBuffer
                ⟨(resolveDiarization dz).speaker_id, txt⟩
              relevantKnowledge := ks.map (fun r => r.content)
              characterStats := s.characterStatsCache
              activeNPCs := s.activeNPCs } ∈
            (onChunk s chunk
              ⟨true, Except.ok ⟨txt⟩, dz, Except.ok i, Except.ok ks, cf, sy⟩).2.2) := by
  refine ⟨?_, ?_, ?_⟩
  · intro buffer u
    refine ⟨pushTranscript_eq_takeLast buffer u, ?_, ?_⟩
    · rw [pushTranscript_eq_takeLast]
      unfold takeLast MAX_TRANSCRIPT_HISTORY
      simp only [List.length_drop, List.length_append, List.length_singleton]
      omega
    · refine ⟨(buffer ++ [u]).take ((buffer ++ [u]).length - MAX_TRANSCRIPT_HISTORY), ?_⟩
      rw [pushTranscript_eq_takeLast]
      unfold takeLast
      exact List.take_append_drop _ _
  · intro s chunk txt dz it ks cf sy ht
    cases it with
    | error e => simp [onChunk, ht]
    | ok i =>
      cases hi : i.should_respond with
      | false => simp [onChunk, ht, hi]
      | true =>
        cases ks with
        | error e => simp [onChunk, ht, hi]
        | ok results =>
          cases cf with
          | error e => simp [onChunk, ht, hi, generateResponse]
          | ok msg =>
            by_cases hr : (parseDecision msg).action = Action.respond ∧
                textTruthy (parseDecision msg).text = true
            · cases sy with
              | ok audio => simp [onChunk, ht, hi, hr, generateResponse]
              | error e => simp [onChunk, ht, hi, hr, generateResponse]
            · simp [onChunk, ht, hi, hr, generateResponse]
  · intro s chunk txt dz i ks cf sy ht hi
    refine ⟨buildChatRequest s.ollama.config s.ollama.conversationHistory
      { sceneMode := s.currentSceneMode
        sceneDescription := s.currentSceneDescription
        recentTranscript := pushTranscript s.recentTranscriptBuffer
          ⟨(resolveDiarization dz).speaker_id, txt⟩
        relevantKnowledge := ks.map (fun r => r.content)
        characterStats := s.characterStatsCache
        activeNPCs := s.activeNPCs }, ?_⟩
    cases cf with
    | error e =>
      simp [onChunk, ht, hi, generateResponse]
    | ok msg =>
      by_cases hr : (parseDecision msg).action = Action.respond ∧
          textTruthy (parseDecision msg).text = true
      · cases sy with
        | ok audio =>
          simp [onChunk, ht, hi, hr, generateResponse]
        | error e =>
          simp [onChunk, ht, hi, hr, generateResponse]
      · simp [onChunk, ht, hi, hr, generateResponse]

/-- Witness for C2 at a concrete state and concrete outcomes. -/
theorem c2_recent_utterances_fifo_witness :
    (onChunk initialMainState (chunkAt 0)
        ⟨true, Except.ok ⟨"hello"⟩, Except.ok ⟨"alice", 1⟩,
         Except.ok ⟨false, 1/2, "chatter"⟩, Except.error (), Except.error (),
         Except.error ()⟩).1.recentTranscriptBuffer =
      pushTranscript [] ⟨"alice", "hello"⟩ := by
  have h := c2_recent_utterances_fifo.2.1 initialMainState (chunkAt 0) "hello"
    (Except.ok ⟨"alice", 1⟩) (Except.ok ⟨false, 1/2, "chatter"⟩)
    (Except.error ()) (Except.error ()) (Except.error ()) (by decide)
  exact h

/-- C3: a failed diarization is replaced by the `unknown`/`0` fallback — the
whole run is identical to one where diarization returned that fallback — and
the transcript segment is still published with the fallback speaker. -/
theorem c3_diarization_failure_fallback :
    (∀ (s : MainState) (chunk : AudioChunk) (pr : Bool)
        (tr : Except Unit Transcription) (it : Except Unit IntentResult)
        (ks : Except Unit (List KnowledgeResult)) (cf : Except Unit ChatResponseMsg)
        (sy : Except Unit SynthesisResult) (e : Unit),
        onChunk s chunk ⟨pr, tr, Except.error e, it, ks, cf, sy⟩ =
          onChunk s chunk ⟨pr, tr, Except.ok ⟨"unknown", 0⟩, it, ks, cf, sy⟩) ∧
    (∀ (s : MainState) (chunk : AudioChunk) (txt : String)
        (it : Except Unit IntentResult) (ks : Except Unit (List KnowledgeResult))
        (cf : Except Unit ChatResponseMsg) (sy : Except Unit SynthesisResult)
        (e : Unit), ¬ jsTrim txt = "" →
        RendererEvent.transcriptUpdate txt "unknown" 0 chunk.timestamp ∈
          (onChunk s chunk
            ⟨true, Except.ok ⟨txt⟩, Except.error e, it, ks, cf, sy⟩).2.1) := by
  constructor
  · intro s chunk pr tr it ks cf sy e
    simp only [onChunk, resolveDiarization]
  · intro s chunk txt it ks cf sy e ht
    cases it with
    | error e2 => simp [onChunk, ht, resolveDiarization, lowConfidenceEvents]
    | ok i =>
      cases hi : i.should_respond with
      | false => simp [onChunk, ht, hi, resolveDiarization, lowConfidenceEvents]
      | true =>
        cases ks with
        | error e2 => simp [onChunk, ht, hi, resolveDiarization, lowConfidenceEvents]
        | ok results =>
          cases cf with
          | error e2 =>
            simp [onChunk, ht, hi, resolveDiarization, lowConfidenceEvents,
              generateResponse]
          | ok msg =>
            by_cases hr : (parseDecision msg).action = Action.respond ∧
                textTruthy (parseDecision msg).text = true
            · cases sy with
              | ok audio =>
                simp [onChunk, ht, hi, hr, resolveDiarization, lowConfidenceEvents,
                  generateResponse]
              | error e2 =>
                simp [onChunk, ht, hi, hr, resolveDiarization, lowConfidenceEvents,
                  generateResponse]
            · simp [onChunk, ht, hi, hr, resolveDiarization, lowConfidenceEvents,
                generateResponse]

/-- Witness for C3: with diarization rejected, the segment still goes out as
`unknown`/`0`. -/
theorem c3_diarization_failure_fallback_witness :
    RendererEvent.transcriptUpdate "hello" "unknown" 0 0 ∈
      (onChunk initialMainState (chunkAt 0)
        ⟨true, Except.ok ⟨"hello"⟩, Except.error (),
         Except.ok ⟨false, 1/2, "chatter"⟩, Except.error (), Except.error (),
         Except.error ()⟩).2.1 :=
  c3_diarization_failure_fallback.2 initialMainState (chunkAt 0) "hello"
    (Except.ok ⟨false, 1/2, "chatter"⟩) (Except.error ()) (Except.error ())
    (Except.error ()) () (by decide)

/-- C4: once the decision is respond with non-empty text, a `dm-response` is
published no matter how synthesis ends: with the synthesized audio on
success, text-only (no audio field) on failure. -/
theorem c4_dmresponse_despite_tts_failure :
    ∀ (s : MainState) (chunk : AudioChunk) (txt : String)
      (dz : Except Unit Diarization) (i : IntentResult)
      (ks : List KnowledgeResult) (msg : ChatResponseMsg)
      (sy : Except Unit SynthesisResult) (t : String) (v : Option String),
      ¬ jsTrim txt = "" → i.should_respond = true →
      parseDecision msg = ⟨Action.respond, some t, v⟩ → ¬ t = "" →
      (onChunk s chunk
          ⟨true, Except.ok ⟨txt⟩, dz, Except.ok i, Except.ok ks,
           Except.ok msg, sy⟩).2.1 =
        lowConfidenceEvents (resolveDiarization dz) txt
          ++ [RendererEvent.transcriptUpdate txt
                (resolveDiarization dz).speaker_id
                (resolveDiarization dz).confidence chunk.timestamp]
          ++ [RendererEvent.dmResponse t
                (match sy with
                 | Except.ok audio => some audio.audio_data
                 | Except.error _ => none) v] := by
  intro s chunk txt dz i ks msg sy t v ht hi hd htne
  have hr : (parseDecision msg).action = Action.respond ∧
      textTruthy (parseDecision msg).text = true := by
    rw [hd]
    exact ⟨rfl, by simp [textTruthy, htne]⟩
  have hct : contentOrEmpty (parseDecision msg).text = t := by
    rw [hd]; rfl
  cases sy with
  | ok audio =>
    simp [onChunk, ht, hi, hr, hd, generateResponse, textTruthy, htne,
      contentOrEmpty]
  | error e =>
    simp [onChunk, ht, hi, hr, hd, generateResponse, textTruthy, htne,
      contentOrEmpty]

/-- Witness for C4: synthesis rejected, text-only `dm-response` still
published. -/
theorem c4_dmresponse_despite_tts_failure_witness :
    (onChunk initialMainState (chunkAt 0)
        ⟨true, Except.ok ⟨"hello"⟩, Except.ok ⟨"alice", 1⟩,
         Except.ok ⟨true, 9/10, "question"⟩, Except.ok [],
         Except.ok ⟨none, [⟨"tts_respond", some "You hit!", none⟩]⟩,
         Except.error ()⟩).2.1 =
      lowConfidenceEvents ⟨"alice", 1⟩ "hello"
        ++ [RendererEvent.transcriptUpdate "hello" "alice" 1 0]
        ++ [RendererEvent.dmResponse "You hit!" none none] :=
  c4_dmresponse_despite_tts_failure initialMainState (chunkAt 0) "hello"
    (Except.ok ⟨"alice", 1⟩) ⟨true, 9/10, "question"⟩ []
    ⟨none, [⟨"tts_respond", some "You hit!", none⟩]⟩ (Except.error ())
    "You hit!" none (by decide) rfl rfl (by decide)

/-- C8: with the session's scene mode set to combat and the intent
classifier signalling `should_respond` at confidence 0.9, the generation
request uses the combat entry of the per-mode temperature lookup (whose
default is combat 0.7 < roleplay 0.8 < exploration 0.9), the system prompt
carries the combat guidance text, and a `dm-response` is published. -/
theorem c8_combat_mode_generation :
    (DEFAULT_CONFIG.temperature.combat < DEFAULT_CONFIG.temperature.rp ∧
     DEFAULT_CONFIG.temperature.rp < DEFAULT_CONFIG.temperature.exploration ∧
     temperatureFor DEFAULT_CONFIG.temperature SceneMode.combat = 7/10) ∧
    (∀ (s : MainState) (chunk : AudioChunk) (txt : String)
        (dz : Except Unit Diarization) (intentType : String)
        (ks : List KnowledgeResult) (msg : ChatResponseMsg)
        (sy : Except Unit SynthesisResult) (t : String) (v : Option String),
        s.currentSceneMode = SceneMode.combat →
        ¬ jsTrim txt = "" →
        parseDecision msg = ⟨Action.respond, some t, v⟩ → ¬ t = "" →
        ∃ req ctx,
          ServiceCall.generateCall req ctx ∈
            (onChunk s chunk
              ⟨true, Except.ok ⟨txt⟩, dz, Except.ok ⟨true, 9/10, intentType⟩,
               Except.ok ks, Except.ok msg, sy⟩).2.2 ∧
          ctx.sceneMode = SceneMode.combat ∧
          req.temperature = s.ollama.config.temperature.combat ∧
          buildSystemPrompt ctx =
            promptHeader ctx ++ modeDescriptions SceneMode.combat ++ promptTail ctx ∧
          ∃ audioOpt,
            RendererEvent.dmResponse t audioOpt v ∈
              (onChunk s chunk
                ⟨true, Except.ok ⟨txt⟩, dz, Except.ok ⟨true, 9/10, intentType⟩,
                 Except.ok ks, Except.ok msg, sy⟩).2.1) := by
  refine ⟨⟨by norm_num [DEFAULT_CONFIG], by norm_num [DEFAULT_CONFIG], rfl⟩, ?_⟩
  intro s chunk txt dz intentType ks msg sy t v hmode ht hd htne
  have hi : (true : Bool) = true := rfl
  have hr : (parseDecision msg).action = Action.respond ∧
      textTruthy (parseDecision msg).text = true := by
    rw [hd]
    exact ⟨rfl, by simp [textTruthy, htne]⟩
  refine ⟨buildChatRequest s.ollama.config s.ollama.conversationHistory
    { sceneMode := s.currentSceneMode
      sceneDescription := s.currentSceneDescription
      recentTranscript := pushTranscript s.recentTranscriptBuffer
        ⟨(resolveDiarization dz).speaker_id, txt⟩
      relevantKnowledge := ks.map (fun r => r.content)
      characterStats := s.characterStatsCache
      activeNPCs := s.activeNPCs },
    { sceneMode := s.currentSceneMode
      sceneDescription := s.currentSceneDescription
      recentTranscript := pushTranscript s.recentTranscriptBuffer
        ⟨(resolveDiarization dz).speaker_id, txt⟩
      relevantKnowledge := ks.map (fun r => r.content)
      characterStats := s.characterStatsCache
      activeNPCs := s.activeNPCs }, ?_, hmode, ?_, ?_, ?_⟩
  · cases sy with
    | ok audio =>
      simp [onChunk, ht, hr, hd, generateResponse, textTruthy, htne]
    | error e =>
      simp [onChunk, ht, hr, hd, generateResponse, textTruthy, htne]
  · simp [buildChatRequest, hmode, temperatureFor]
  · simp [buildSystemPrompt, hmode]
  · cases sy with
    | ok audio =>
      refine ⟨some audio.audio_data, ?_⟩
      simp [onChunk, ht, hr, hd, generateResponse, textTruthy, htne,
        contentOrEmpty]
    | error e =>
      refine ⟨none, ?_⟩
      simp [onChunk, ht, hr, hd, generateResponse, textTruthy, htne,
        contentOrEmpty]

/-- Witness for C8 with the utterance of the spec scenario. -/
theorem c8_combat_mode_generation_witness :
    ∃ req ctx,
      ServiceCall.generateCall req ctx ∈
        (onChunk { initialMainState with currentSceneMode := SceneMode.combat }
          (chunkAt 0)
          ⟨true, Except.ok ⟨"I attack the goblin"⟩, Except.ok ⟨"alice", 1⟩,
           Except.ok ⟨true, 9/10, "action"⟩, Except.ok [],
           Except.ok ⟨none, [⟨"tts_respond", some "Roll for initiative.", none⟩]⟩,
           Except.error ()⟩).2.2 ∧
      ctx.sceneMode = SceneMode.combat ∧
      req.temperature =
        ({ initialMainState with
            currentSceneMode := SceneMode.combat }).ollama.config.temperature.combat ∧
      buildSystemPrompt ctx =
        promptHeader ctx ++ modeDescriptions SceneMode.combat ++ promptTail ctx ∧
      ∃ audioOpt,
        RendererEvent.dmResponse "Roll for initiative." audioOpt none ∈
          (onChunk { initialMainState with currentSceneMode := SceneMode.combat }
            (chunkAt 0)
            ⟨true, Except.ok ⟨"I attack the goblin"⟩, Except.ok ⟨"alice", 1⟩,
             Except.ok ⟨true, 9/10, "action"⟩, Except.ok [],
             Except.ok ⟨none, [⟨"tts_respond", some "Roll for initiative.", none⟩]⟩,
             Except.error ()⟩).2.1 :=
  c8_combat_mode_generation.2
    { initialMainState with currentSceneMode := SceneMode.combat }
    (chunkAt 0) "I attack the goblin" (Except.ok ⟨"alice", 1⟩) "action" []
    ⟨none, [⟨"tts_respond", some "Roll for initiative.", none⟩]⟩
    (Except.error ()) "Roll for initiative." none rfl (by decide) rfl (by decide)

/-- After any `stop`, capture is off. -/
theorem stop_fst_not_capturing (s : AudioCaptureState) (now : ℕ) :
    (stop s now).1.isCapturing = false := by
  unfold stop
  by_cases hcap : s.isCapturing = true
  · rw [if_pos hcap]
    unfold processBuffer
    by_cases hb : s.audioBuffer.length = 0
    · simp [hb]
    · by_cases hv : detectVoiceActivity s.audioBuffer.flatten = true
      · simp [hb, hv]
      · simp [hb, hv]
  · rw [if_neg hcap]
    simpa using hcap

/-- `stop` on a non-capturing assembler is a no-op. -/
theorem stop_of_not_capturing (s : AudioCaptureState) (now : ℕ)
    (h : s.isCapturing = false) : stop s now = (s, []) := by
  unfold stop
  rw [h]
  simp

/-- C6: `start` while capturing is a no-op; a second `stop` is a no-op, so
two consecutive `stop`s flush at most once; the flush clears the buffer and
routes the buffered audio through the voice-activity check, so any chunk it
emits is the concatenated buffer and passed `detectVoiceActivity`. -/
theorem c6_start_stop_idempotent :
    (∀ (s : AudioCaptureState), s.isCapturing = true → start s = (s, [])) ∧
    (∀ (s : AudioCaptureState) (now now2 : ℕ),
        stop (stop s now).1 now2 = ((stop s now).1, [])) ∧
    (∀ (s : AudioCaptureState) (now now2 : ℕ),
        (((stop s now).2 ++ (stop (stop s now).1 now2).2).filter
          (fun e => match e with
            | CaptureEvent.chunk _ => true
            | _ => false)).length ≤ 1) ∧
    (∀ (s : AudioCaptureState) (now : ℕ), s.isCapturing = true →
        (stop s now).1.audioBuffer = []) ∧
    (∀ (s : AudioCaptureState) (now : ℕ) (c : AudioChunk),
        CaptureEvent.chunk c ∈ (stop s now).2 →
        detectVoiceActivity c.data = true ∧ c.data = s.audioBuffer.flatten) := by
  have hsecond : ∀ (s : AudioCaptureState) (now now2 : ℕ),
      stop (stop s now).1 now2 = ((stop s now).1, []) := by
    intro s now now2
    exact stop_of_not_capturing _ _ (stop_fst_not_capturing s now)
  refine ⟨?_, hsecond, ?_, ?_, ?_⟩
  · intro s h
    unfold start
    rw [h]
    simp
  · intro s now now2
    rw [hsecond s now now2]
    unfold stop
    by_cases hcap : s.isCapturing = true
    · rw [if_pos hcap]
      unfold processBuffer
      by_cases hb : s.audioBuffer.length = 0
      · simp [hb]
      · by_cases hv : detectVoiceActivity s.audioBuffer.flatten = true
        · simp [hb, hv]
        · simp [hb, hv]
    · rw [if_neg hcap]
      simp
  · intro s now hcap
    unfold stop
    rw [if_pos hcap]
  · intro s now c hmem
    unfold stop at hmem
    by_cases hcap : s.isCapturing = true
    · rw [if_pos hcap] at hmem
      unfold processBuffer at hmem
      by_cases hb : s.audioBuffer.length = 0
      · simp [hb] at hmem
      · by_cases hv : detectVoiceActivity s.audioBuffer.flatten = true
        · simp [hb, hv] at hmem
          subst hmem
          exact ⟨hv, rfl⟩
        · simp [hb, hv] at hmem
    · rw [if_neg hcap] at hmem
      simp at hmem

/-- Witness for C6: `start` on an already-capturing assembler changes
nothing. -/
theorem c6_start_stop_idempotent_witness :
    start { isCapturing := true, audioBuffer := [], chunkIntervalActive := true } =
      ({ isCapturing := true, audioBuffer := [], chunkIntervalActive := true }, []) :=
  c6_start_stop_idempotent.1
    { isCapturing := true, audioBuffer := [], chunkIntervalActive := true } rfl

/-- A sum of squares of rationals is nonnegative. -/
theorem sumSquares_nonneg (samples : List ℚ) : 0 ≤ sumSquares samples := by
  unfold sumSquares
  apply List.sum_nonneg
  intro x hx
  simp only [List.mem_map] at hx
  obtain ⟨a, -, rfl⟩ := hx
  exact mul_self_nonneg a

/-- A buffer of zeros has zero energy. -/
theorem sumSquares_replicate_zero (n : ℕ) :
    sumSquares (List.replicate n 0) = 0 := by
  unfold sumSquares
  rw [List.map_replicate]
  simp

/-- The silent buffer has zero energy. -/
theorem sumSquares_silent : sumSquares silentSamples = 0 := by
  unfold silentSamples
  exact sumSquares_replicate_zero 38400

/-- A tick whose `processBuffer` emits nothing runs no handler: no state
change beyond the buffer, no events, no calls. -/
theorem timerTick_eq_of_processBuffer (a a' : AudioCaptureState) (now : ℕ)
    (s : MainState) (o : ChunkOutcomes)
    (h : processBuffer a now = (a', none)) :
    timerTick a now s o = (a', s, [], []) := by
  unfold timerTick
  rw [h]

/-- C5: voice activity is declared exactly when the RMS energy
(`Math.sqrt(sumSquares / n)`) exceeds the energy threshold, the above-floor
sample count exceeds the minimum, and the zero-crossing rate lies strictly
inside the voiced band; in particular 2.4 s of silence is rejected, so the
timer tick emits no chunk, publishes nothing, and calls no service. -/
theorem c5_vad_characterization :
    (∀ (samples : List ℚ),
        detectVoiceActivity samples = true ↔
          ((VAD_ENERGY_THRESHOLD : ℝ) <
              Real.sqrt ((sumSquares samples / (samples.length : ℚ) : ℚ) : ℝ) ∧
           VAD_MIN_SPEECH_SAMPLES < samplesAboveThreshold samples ∧
           ((2 : ℚ)/100 < (zeroCrossings samples : ℚ) / (samples.length : ℚ) ∧
            (zeroCrossings samples : ℚ) / (samples.length : ℚ) < 5/10))) ∧
    detectVoiceActivity silentSamples = false ∧
    (∀ (now : ℕ) (s : MainState) (o : ChunkOutcomes),
        timerTick silentCapture now s o =
          ({ silentCapture with audioBuffer := [] }, s, [], [])) := by
  have hne : ¬ silentSamples.length = 0 := by
    unfold silentSamples
    rw [List.length_replicate]
    decide
  have hdet : detectVoiceActivity silentSamples = false := by
    unfold detectVoiceActivity
    rw [if_neg hne, sumSquares_silent]
    simp only [zero_div]
    have he : decide ((0 : ℚ) >
        VAD_ENERGY_THRESHOLD * VAD_ENERGY_THRESHOLD) = false :=
      decide_eq_false (by norm_num [VAD_ENERGY_THRESHOLD])
    rw [he, Bool.false_and, Bool.false_and]
  have hdetf : detectVoiceActivity ((silentCapture.audioBuffer).flatten) = false := by
    show detectVoiceActivity (([silentSamples] : List (List ℚ)).flatten) = false
    rw [List.flatten_cons, List.flatten_nil, List.append_nil, hdet]
  have hc : ¬ (silentCapture.audioBuffer.length = 0) := by
    show ¬ (([silentSamples] : List (List ℚ)).length = 0)
    simp
  have hpb : ∀ (now : ℕ), processBuffer silentCapture now =
      ({ silentCapture with audioBuffer := [] }, none) := by
    intro now
    unfold processBuffer
    rw [if_neg hc]
    simp only [hdetf]
    simp only [Bool.false_eq_true, if_false]
  refine ⟨?_, hdet, ?_⟩
  · intro samples
    by_cases h0 : samples.length = 0
    · have hs : samples = [] := List.length_eq_zero.mp h0
      subst hs
      constructor
      · intro htrue
        exact absurd htrue (by decide)
      · rintro ⟨-, h2, -⟩
        have hz : samplesAboveThreshold ([] : List ℚ) = 0 := rfl
        rw [hz] at h2
        exact absurd h2 (by decide)
    · have hbridge : (VAD_ENERGY_THRESHOLD : ℝ) <
          Real.sqrt ((sumSquares samples / (samples.length : ℚ) : ℚ) : ℝ) ↔
          VAD_ENERGY_THRESHOLD * VAD_ENERGY_THRESHOLD <
            sumSquares samples / (samples.length : ℚ) := by
        rw [Real.lt_sqrt (by norm_num [VAD_ENERGY_THRESHOLD])]
        rw [show ((VAD_ENERGY_THRESHOLD : ℚ) : ℝ) ^ 2 =
            ((VAD_ENERGY_THRESHOLD * VAD_ENERGY_THRESHOLD : ℚ) : ℝ) by
          push_cast; ring]
        exact Rat.cast_lt
      unfold detectVoiceActivity
      rw [if_neg h0]
      simp only [Bool.and_eq_true, decide_eq_true_eq]
      constructor
      · rintro ⟨⟨h1, h2⟩, h3, h4⟩
        exact ⟨hbridge.mpr h1, h2, h3, h4⟩
      · rintro ⟨h1, h2, h3, h4⟩
        exact ⟨⟨hbridge.mp h1, h2⟩, h3, h4⟩
  · intro now s o
    exact timerTick_eq_of_processBuffer silentCapture _ now s o (hpb now)

/-- Witness for C5: the silent tick at a concrete time changes no state and
produces no events or calls. -/
theorem c5_vad_characterization_witness :
    timerTick silentCapture 5 initialMainState noRespondOutcomes =
      ({ silentCapture with audioBuffer := [] }, initialMainState, [], []) :=
  c5_vad_characterization.2.2 5 initialMainState noRespondOutcomes

/-- Any two handler event lists allow the interleaving that schedules the
whole second run before the first. -/
theorem interleave_right_then_left {α : Type} (xs ys : List α) :
    Interleave xs ys (ys ++ xs) := by
  induction ys with
  | nil =>
    induction xs with
    | nil => exact Interleave.nil
    | cons x xs ih => exact Interleave.left x xs [] xs ih
  | cons y ys ih => exact Interleave.right y xs ys (ys ++ xs) ih

/-- C1 (violation exhibited): the `on('chunk', async ..)` handler is not
awaited, so the event streams of two concurrently processed chunks may
interleave arbitrarily; in particular, for the chunk captured at time 0 and
the chunk captured at time 1 there is a valid interleaving whose published
transcript updates appear in capture-timestamp order `[1, 0]` — strictly
decreasing, violating the claimed ordering. -/
theorem c1_out_of_order_publication :
    ∃ merged : List RendererEvent,
      Interleave (runEvents (chunkAt 0)) (runEvents (chunkAt 1)) merged ∧
      transcriptTimestamps merged = [1, 0] ∧
      ¬ List.Pairwise (· ≤ ·) (transcriptTimestamps merged) := by
  have ht : ¬ jsTrim "hello there" = "" := by decide
  have hlc : lowConfidenceEvents ⟨"alice", 1⟩ "hello there" = [] := by
    unfold lowConfidenceEvents
    rw [if_neg]
    rintro ⟨h1, -⟩
    norm_num at h1
  have hrun : ∀ ts : ℕ, runEvents (chunkAt ts) =
      [RendererEvent.transcriptUpdate "hello there" "alice" 1 ts] := by
    intro ts
    unfold runEvents noRespondOutcomes
    simp [onChunk, ht, resolveDiarization, hlc, chunkAt]
  refine ⟨runEvents (chunkAt 1) ++ runEvents (chunkAt 0),
    interleave_right_then_left _ _, ?_, ?_⟩
  · rw [hrun 0, hrun 1]
    rfl
  · rw [hrun 0, hrun 1]
    have h2 : transcriptTimestamps
        ([RendererEvent.transcriptUpdate "hello there" "alice" 1 1] ++
         [RendererEvent.transcriptUpdate "hello there" "alice" 1 0]) = [1, 0] := rfl
    rw [h2]
    intro hp
    rw [List.pairwise_cons] at hp
    have h10 := hp.1 0 (by simp)
    omega

end VttDM
